import Mathlib

/-!
# Verification of the PyAutoLens multi-plane ray-tracing core

Shallow embedding of the repository's lensing core.

* `autolens/lens/plane.py` is present in the sources and is embedded directly
  (`Plane`, `plane_init`, the per-plane aggregation functions, and the
  lensing-Jacobian / critical-curve chain, including the places where that
  file references the bare name `grid` — which is bound nowhere — and the
  attribute `self.grid_stack`, which `Plane.__init__` never assigns).
* The `Tracer` implementation (`ray_tracing.py`) and the cosmology utilities
  are not among the sources; only their test-suite is.  Those parts are
  modelled from the specification, and each such definition carries a doc
  comment starting with `Modelled from the spec:`.

Python floats are embedded as exact rationals (`ℚ`); a numpy array of shape
`(N,)` is a `List ℚ`, and an `(N, 2)` array of (y, x) pairs is a `List Point`.
-/

namespace PyAutoLens

/-- A (y, x) arc-second sky coordinate, as used throughout the repository. -/
abbrev Point : Type := ℚ × ℚ

/-- A 1D grid: an ordered sequence of (y, x) coordinates. -/
abbrev Grid : Type := List Point

/-- Componentwise addition of (y, x) pairs (numpy elementwise `+`). -/
def padd (a b : Point) : Point := (a.1 + b.1, a.2 + b.2)

/-- Componentwise subtraction of (y, x) pairs (numpy elementwise `-`). -/
def psub (a b : Point) : Point := (a.1 - b.1, a.2 - b.2)

/-- Scalar multiplication of a (y, x) pair (numpy `scalar * array`). -/
def psmul (c : ℚ) (a : Point) : Point := (c * a.1, c * a.2)

/-- Sum of a list of (y, x) pairs. -/
def psum (l : List Point) : Point := l.foldr padd (0, 0)

/-- Elementwise subtraction of two coordinate arrays (numpy `grid - deflections`). -/
def gridSub (a b : Grid) : Grid := List.zipWith psub a b

/-- Elementwise scaling of a coordinate array (numpy `scaling_factor * deflections`). -/
def gridSmul (c : ℚ) (g : Grid) : Grid := g.map (psmul c)

/-- Elementwise addition of two scalar arrays. -/
def arrAdd (a b : List ℚ) : List ℚ := List.zipWith (· + ·) a b

/-- Python's `sum(...)` over a nonempty collection of equally-shaped scalar
arrays: `0 + a₀ + a₁ + ⋯` where `0 + a₀ = a₀` by numpy broadcasting.  The
empty case is never reached in the source (it is guarded by `if self.galaxies:`)
and is embedded as the empty array. -/
def sumArrays : List (List ℚ) → List ℚ
  | [] => []
  | a :: rest => rest.foldl arrAdd a

/-- Python's `sum(...)` over a nonempty collection of `(N, 2)` deflection
arrays, as in `Plane.deflections_from_grid`. -/
def sumGrids : List Grid → Grid
  | [] => []
  | a :: rest => rest.foldl (fun acc b => List.zipWith padd acc b) a

/-- The external `Galaxy` collaborator (spec §2, §6): identified by a redshift,
carrying optional light and mass profiles, exposed to the core only through the
four per-grid evaluation functions and the capability flags.  The profile
evaluation functions are arbitrary pointwise maps. -/
structure Galaxy where
  redshift : ℚ
  has_light_profile : Bool
  has_mass_profile : Bool
  lightFn : Point → ℚ
  convergenceFn : Point → ℚ
  potentialFn : Point → ℚ
  deflectionFn : Point → Point

/-- Per-galaxy image evaluation (external collaborator, spec §4.3): a galaxy
lacking a light profile contributes an all-zero array of the grid's shape. -/
def Galaxy.profile_image_from_grid (g : Galaxy) (grid : Grid) : List ℚ :=
  if g.has_light_profile then grid.map g.lightFn else List.replicate grid.length 0

/-- Per-galaxy convergence evaluation (external collaborator, spec §4.3). -/
def Galaxy.convergence_from_grid (g : Galaxy) (grid : Grid) : List ℚ :=
  if g.has_mass_profile then grid.map g.convergenceFn else List.replicate grid.length 0

/-- Per-galaxy potential evaluation (external collaborator, spec §4.3). -/
def Galaxy.potential_from_grid (g : Galaxy) (grid : Grid) : List ℚ :=
  if g.has_mass_profile then grid.map g.potentialFn else List.replicate grid.length 0

/-- Per-galaxy deflection evaluation (external collaborator, spec §4.3): a
galaxy lacking a mass profile contributes an all-zero `(N, 2)` array. -/
def Galaxy.deflections_from_grid (g : Galaxy) (grid : Grid) : Grid :=
  if g.has_mass_profile then grid.map g.deflectionFn else List.replicate grid.length (0, 0)

/-- The part of the legacy `grid_stack` object that `plane.py` still reads:
`self.grid_stack.sub.unlensed_grid_1d` (in `convergence` and `potential`),
the 2D coordinate array `in_2d`, `pixel_scale`, `sub_grid_size` and the mask
origin (in the Jacobian and critical-curve methods). -/
structure GridStack where
  sub_unlensed_grid_1d : Grid
  in_2d : List (List Point)
  pixel_scale : ℚ
  sub_grid_size : ℚ
  origin : Point

/-- `Plane` as constructed by `plane.py`'s `Plane.__init__`: the constructor
stores exactly `redshift`, `galaxies` and the cosmology choice.  The
`grid_stack` field models the *attribute* `self.grid_stack`, which several
methods read but which `__init__` (and nothing else in the sources) ever
assigns: a `Plane` as built by the sources always carries `none` there, and
reading it then raises `AttributeError`. -/
structure Plane where
  redshift : ℚ
  galaxies : List Galaxy
  grid_stack : Option GridStack

/-- `Plane.__init__` (plane.py:20-60): with `redshift=None` the redshift is
derived from the galaxies, raising `exc.RayTracingException` when the galaxy
list is empty (`if not galaxies`) or when some galaxy's redshift differs from
the first one's; with a concrete redshift the arguments are stored unchecked.
`self.grid_stack` is never assigned. -/
def plane_init (redshift : Option ℚ) (galaxies : List Galaxy) : Except String Plane :=
  match redshift with
  | none =>
    match galaxies with
    | [] => .error "RayTracingException: A redshift and no galaxies were input to a Plane."
    | g0 :: rest =>
      if (g0 :: rest).all (fun g => g0.redshift == g.redshift) then
        .ok ⟨g0.redshift, g0 :: rest, none⟩
      else
        .error "RayTracingException: two or more galaxies with different redshifts"
  | some z => .ok ⟨z, galaxies, none⟩

/-- `Plane.has_mass_profile` (plane.py:95-97): any galaxy has a mass profile. -/
def Plane.has_mass_profile (p : Plane) : Bool :=
  p.galaxies.any (fun g => g.has_mass_profile)

/-- `Plane.has_light_profile` (plane.py:91-93). -/
def Plane.has_light_profile (p : Plane) : Bool :=
  p.galaxies.any (fun g => g.has_light_profile)

/-- `Plane.profile_image_from_grid` (plane.py:127-159): sum of the galaxies'
profile images evaluated at the *given* grid; an all-zero array of the grid's
shape when the galaxy list is empty.  (The `reshape_returned_array` decorator
and the `return_in_2d`/`return_binned` re-shaping belong to modules absent
from the sources; the masked-1D computation embedded here is the one in the
function body, which calls each galaxy with `return_in_2d=False,
return_binned=False`.) -/
def Plane.profile_image_from_grid (p : Plane) (grid : Grid) : List ℚ :=
  match p.galaxies with
  | [] => List.replicate grid.length 0
  | g :: rest => sumArrays ((g :: rest).map (fun gal => gal.profile_image_from_grid grid))

/-- `Plane.convergence` (plane.py:185-222), exactly as written: the method
takes no grid argument; it evaluates every galaxy at
`self.grid_stack.sub.unlensed_grid_1d` (and, for an empty galaxy list, builds
the zero array from `self.grid_stack.sub.shape[0]`).  Since `__init__` never
assigns `grid_stack`, the attribute read fails on every `Plane` the sources
construct; the failure is the `none` branch. -/
def Plane.convergence (p : Plane) : Option (List ℚ) :=
  p.grid_stack.map (fun gs =>
    match p.galaxies with
    | [] => List.replicate gs.sub_unlensed_grid_1d.length 0
    | g :: rest => sumArrays ((g :: rest).map (fun gal => gal.convergence_from_grid gs.sub_unlensed_grid_1d)))

/-- `Plane.potential` (plane.py:224-261): same structure as `convergence`,
again reading the never-assigned `self.grid_stack`. -/
def Plane.potential (p : Plane) : Option (List ℚ) :=
  p.grid_stack.map (fun gs =>
    match p.galaxies with
    | [] => List.replicate gs.sub_unlensed_grid_1d.length 0
    | g :: rest => sumArrays ((g :: rest).map (fun gal => gal.potential_from_grid gs.sub_unlensed_grid_1d)))

/-- `Plane.deflections_from_grid` (plane.py:263-277): sum of the galaxies'
deflection arrays evaluated at the given grid; an all-zero `(N, 2)` array when
the galaxy list is empty. -/
def Plane.deflections_from_grid (p : Plane) (grid : Grid) : Grid :=
  match p.galaxies with
  | [] => List.replicate grid.length (0, 0)
  | g :: rest => sumGrids ((g :: rest).map (fun gal => gal.deflections_from_grid grid))

/-- `Plane.traced_grid_from_grid` (plane.py:279-283): the one-hop lens
equation `grid - deflections_from_grid(grid)`. -/
def Plane.traced_grid_from_grid (p : Plane) (grid : Grid) : Grid :=
  gridSub grid (p.deflections_from_grid grid)

/-! ## The lensing-Jacobian chain of plane.py

The bodies of `lensing_jacobian_a11_from_deflections_2d` … `a22` and of
`lensing_jacobian` (plane.py:298-368) all reference the bare identifier
`grid` (`self.deflections_from_grid(grid=grid, ...)`,
`self.lensing_jacobian_a11_from_deflections_2d(grid=grid, ...)`).  None of
these methods has a parameter named `grid`, the class body binds no such
name, and module `plane.py` has no global `grid`; in Python the name lookup
therefore fails with `NameError` on every call.  `plane_module_grid` embeds
what that bare name resolves to — nothing. -/

/-- The value bound to the identifier `grid` inside the method bodies of
plane.py: no local, enclosing, global or builtin binding exists, so the
lookup yields nothing and evaluating the name raises `NameError`. -/
def plane_module_grid : Option Grid := none

/-- Error raised when the unbound name `grid` is evaluated. -/
def nameErrorGrid : String := "NameError: name grid is not defined"

/-- Error raised when `self.grid_stack` is read on a `Plane` built by
`Plane.__init__`, which never assigns that attribute. -/
def attrErrorGridStack : String := "AttributeError: Plane object has no attribute grid_stack"

/-- A 2D scalar map (a numpy array of shape `(rows, cols)`). -/
abbrev Matrix2D : Type := List (List ℚ)

/-- `np.gradient(f, x)` along a 1D slice with a coordinate array `x` of
uniform spacing (the repository only ever passes uniformly spaced pixel-centre
coordinates): central differences at interior points and one-sided differences
at both edges. -/
def np_gradient (f x : List ℚ) : List ℚ :=
  let n := f.length
  (List.range n).map (fun i =>
    if i = 0 then (f.getD 1 0 - f.getD 0 0) / (x.getD 1 0 - x.getD 0 0)
    else if i = n - 1 then (f.getD i 0 - f.getD (i - 1) 0) / (x.getD i 0 - x.getD (i - 1) 0)
    else (f.getD (i + 1) 0 - f.getD (i - 1) 0) / (x.getD (i + 1) 0 - x.getD (i - 1) 0))

/-- `np.gradient(m, x, axis=1)`: gradient of every row. -/
def np_gradient_axis1 (m : Matrix2D) (x : List ℚ) : Matrix2D :=
  m.map (fun row => np_gradient row x)

/-- `np.gradient(m, y, axis=0)`: gradient of every column. -/
def np_gradient_axis0 (m : Matrix2D) (y : List ℚ) : Matrix2D :=
  ((m.transpose).map (fun col => np_gradient col y)).transpose

/-- Elementwise map over a 2D scalar map. -/
def mat_map (f : ℚ → ℚ) (m : Matrix2D) : Matrix2D := m.map (fun row => row.map f)

/-- Elementwise combination of two 2D scalar maps. -/
def mat_zip (f : ℚ → ℚ → ℚ) (a b : Matrix2D) : Matrix2D :=
  List.zipWith (List.zipWith f) a b

/-- Split a 1D array into rows of width `w` (the `return_in_2d=True`
re-shaping performed by the `reshape_returned_array` decorator, whose module
is absent from the sources; modelled from the spec, §9: the 2D structure is
the grid's rows/columns). -/
def reshape_to_2d (w : ℕ) : List α → List (List α)
  | [] => []
  | a :: as => (a :: as).take (w + 1) :: reshape_to_2d w ((a :: as).drop (w + 1))
  termination_by l => l.length
  decreasing_by
    simp only [List.length_drop, List.length_cons]
    omega

/-- Rows of width `w` (a row width is always positive in the repository's
grids; `reshape_to_2d` recurses on `w - 1 + 1` to make termination evident). -/
def reshape2d (w : ℕ) (l : List α) : List (List α) := reshape_to_2d (w - 1) l

/-- `in_2d[0, :, 1]`: the x coordinates of the first row. -/
def GridStack.xcoords (gs : GridStack) : List ℚ :=
  (gs.in_2d.headD []).map (fun pt => pt.2)

/-- `in_2d[:, 0, 0]`: the y coordinates of the first column. -/
def GridStack.ycoords (gs : GridStack) : List ℚ :=
  gs.in_2d.map (fun row => (row.headD (0, 0)).1)

/-- `Plane.lensing_jacobian_a11_from_deflections_2d` (plane.py:298-309):
`1.0 - np.gradient(deflections_2d[:, :, 1], in_2d[0, :, 1], axis=1)`.  The
body first evaluates `self.deflections_from_grid(grid=grid, ...)` where
`grid` is the unbound name, then reads the never-assigned `self.grid_stack`
for the coordinate arrays; both failure points are kept. -/
def Plane.lensing_jacobian_a11_from_deflections_2d (p : Plane) : Except String Matrix2D :=
  match plane_module_grid with
  | none => .error nameErrorGrid
  | some grid =>
    match p.grid_stack with
    | none => .error attrErrorGridStack
    | some gs =>
      let deflections_2d := reshape2d gs.xcoords.length (p.deflections_from_grid grid)
      .ok (mat_map (fun v => 1 - v)
        (np_gradient_axis1 (deflections_2d.map (fun row => row.map Prod.snd)) gs.xcoords))

/-- `Plane.lensing_jacobian_a12_from_deflections_2d` (plane.py:311-322):
`-1.0 * np.gradient(deflections_2d[:, :, 1], in_2d[:, 0, 0], axis=0)`. -/
def Plane.lensing_jacobian_a12_from_deflections_2d (p : Plane) : Except String Matrix2D :=
  match plane_module_grid with
  | none => .error nameErrorGrid
  | some grid =>
    match p.grid_stack with
    | none => .error attrErrorGridStack
    | some gs =>
      let deflections_2d := reshape2d gs.xcoords.length (p.deflections_from_grid grid)
      .ok (mat_map (fun v => -1 * v)
        (np_gradient_axis0 (deflections_2d.map (fun row => row.map Prod.snd)) gs.ycoords))

/-- `Plane.lensing_jacobian_a21_from_deflections_2d` (plane.py:324-335):
`-1.0 * np.gradient(deflections_2d[:, :, 0], in_2d[0, :, 1], axis=1)`. -/
def Plane.lensing_jacobian_a21_from_deflections_2d (p : Plane) : Except String Matrix2D :=
  match plane_module_grid with
  | none => .error nameErrorGrid
  | some grid =>
    match p.grid_stack with
    | none => .error attrErrorGridStack
    | some gs =>
      let deflections_2d := reshape2d gs.xcoords.length (p.deflections_from_grid grid)
      .ok (mat_map (fun v => -1 * v)
        (np_gradient_axis1 (deflections_2d.map (fun row => row.map Prod.fst)) gs.xcoords))

/-- `Plane.lensing_jacobian_a22_from_deflections_2d` (plane.py:337-348):
`1 - np.gradient(deflections_2d[:, :, 0], in_2d[:, 0, 0], axis=0)`. -/
def Plane.lensing_jacobian_a22_from_deflections_2d (p : Plane) : Except String Matrix2D :=
  match plane_module_grid with
  | none => .error nameErrorGrid
  | some grid =>
    match p.grid_stack with
    | none => .error attrErrorGridStack
    | some gs =>
      let deflections_2d := reshape2d gs.xcoords.length (p.deflections_from_grid grid)
      .ok (mat_map (fun v => 1 - v)
        (np_gradient_axis0 (deflections_2d.map (fun row => row.map Prod.fst)) gs.ycoords))

/-- `Plane.lensing_jacobian` (plane.py:350-368): calls each entry method as
`self.lensing_jacobian_a11_from_deflections_2d(grid=grid, ...)`, so its body
too evaluates the unbound name `grid` before anything else. -/
def Plane.lensing_jacobian (p : Plane) :
    Except String (Matrix2D × Matrix2D × Matrix2D × Matrix2D) :=
  match plane_module_grid with
  | none => .error nameErrorGrid
  | some _ => do
    let a11 ← p.lensing_jacobian_a11_from_deflections_2d
    let a12 ← p.lensing_jacobian_a12_from_deflections_2d
    let a21 ← p.lensing_jacobian_a21_from_deflections_2d
    let a22 ← p.lensing_jacobian_a22_from_deflections_2d
    return (a11, a12, a21, a22)

/-- `Plane.convergence_from_jacobian` (plane.py:370-377):
`1 - 0.5 * (jacobian[0, 0] + jacobian[1, 1])`. -/
def Plane.convergence_from_jacobian (p : Plane) : Except String Matrix2D := do
  let (a11, _, _, a22) ← p.lensing_jacobian
  return mat_zip (fun x y => 1 - (1/2) * (x + y)) a11 a22

/-- `Plane.shear_from_jacobian` (plane.py:379-387):
`gamma_1 = 0.5 * (jacobian[1, 1] - jacobian[0, 0])`,
`gamma_2 = -0.5 * (jacobian[0, 1] + jacobian[1, 0])`,
result `(gamma_1 ** 2 + gamma_2 ** 2) ** 0.5`.  The square root has no exact
rational value; the floating-point `** 0.5` is taken as the parameter
`sqrtFn`. -/
def Plane.shear_from_jacobian (sqrtFn : ℚ → ℚ) (p : Plane) : Except String Matrix2D := do
  let (a11, a12, a21, a22) ← p.lensing_jacobian
  let gamma1 := mat_zip (fun y x => (1/2) * (y - x)) a22 a11
  let gamma2 := mat_zip (fun x y => -(1/2) * (x + y)) a12 a21
  return mat_zip (fun g1 g2 => sqrtFn (g1 ^ 2 + g2 ^ 2)) gamma1 gamma2

/-- `Plane.tangential_eigen_value_from_shear_and_convergence`
(plane.py:389-400): `1 - convergence - shear`. -/
def Plane.tangential_eigen_value_from_shear_and_convergence
    (sqrtFn : ℚ → ℚ) (p : Plane) : Except String Matrix2D := do
  let conv ← p.convergence_from_jacobian
  let shear ← p.shear_from_jacobian sqrtFn
  return mat_zip (fun c s => 1 - c - s) conv shear

/-- `Plane.radial_eigen_value_from_shear_and_convergence` (plane.py:402-413):
`1 - convergence + shear`.  (`radial_critical_curve_from_grid` passes a
`grid=` keyword to this method; the `reshape_returned_array` decorator that
receives it is not among the sources, and the body ignores any grid, so the
keyword is modelled as swallowed by the decorator.) -/
def Plane.radial_eigen_value_from_shear_and_convergence
    (sqrtFn : ℚ → ℚ) (p : Plane) : Except String Matrix2D := do
  let conv ← p.convergence_from_jacobian
  let shear ← p.shear_from_jacobian sqrtFn
  return mat_zip (fun c s => 1 - c + s) conv shear

/-- `Plane.magnification_from_grid` (plane.py:415-422):
`det = jacobian[0,0]*jacobian[1,1] - jacobian[0,1]*jacobian[1,0]`, result
`1 / det`. -/
def Plane.magnification_from_grid (p : Plane) : Except String Matrix2D := do
  let (a11, a12, a21, a22) ← p.lensing_jacobian
  let det := mat_zip (fun u v => u - v) (mat_zip (fun x y => x * y) a11 a22)
    (mat_zip (fun x y => x * y) a12 a21)
  return mat_map (fun d => 1 / d) det

/-- The contours returned by `skimage.measure.find_contours(map, 0)`: an
external collaborator, taken as a parameter; each contour is an array of
(row, col) pixel coordinates, and the list is empty when the map has no zero
crossing. -/
abbrev ContourFinder : Type := Matrix2D → List (List Point)

/-- `grid_util.grid_pixels_1d_to_grid_arcsec_1d` — its module is absent from
the sources.  Modelled from the spec (§4.4): pixel indices are mapped to
arc-second coordinates using the pixel scales and the origin, with y
decreasing with row index and x increasing with column index about the grid
centre. -/
def grid_pixels_1d_to_grid_arcsec_1d (pix : List Point) (shape : ℕ × ℕ)
    (pixel_scales : ℚ × ℚ) (origin : Point) : List Point :=
  pix.map (fun pt =>
    (((shape.1 : ℚ) / 2 - 1/2 - pt.1) * pixel_scales.1 + origin.1,
     (pt.2 - (shape.2 : ℚ) / 2 + 1/2) * pixel_scales.2 + origin.2))

/-- `Plane.tangential_critical_curve_from_grid` (plane.py:424-452): computes
the 2D tangential-eigenvalue map (which requires the Jacobian chain), finds
its zero contours, returns `[]` when there are none, and otherwise maps the
first contour to arc seconds using `self.grid_stack` and applies the
half-pixel offset correction `y -= pixel_scale/2`, `x += pixel_scale/2`. -/
def Plane.tangential_critical_curve_from_grid
    (sqrtFn : ℚ → ℚ) (fc : ContourFinder) (p : Plane) : Except String (List Point) := do
  let lam2d ← p.tangential_eigen_value_from_shear_and_convergence sqrtFn
  let idx := fc lam2d
  if idx = [] then
    return []
  else
    match p.grid_stack with
    | none => .error attrErrorGridStack
    | some gs =>
      let shape := (lam2d.length, (lam2d.headD []).length)
      let ps := gs.pixel_scale / gs.sub_grid_size
      let curve := grid_pixels_1d_to_grid_arcsec_1d (idx.headD []) shape (ps, ps) gs.origin
      return curve.map (fun pt => (pt.1 - gs.pixel_scale / 2, pt.2 + gs.pixel_scale / 2))

/-- `Plane.tangential_caustic_from_grid` (plane.py:454-465): the critical
curve, `[]` when it is empty, otherwise
`critical_curve - deflections_from_grid(critical_curve)`. -/
def Plane.tangential_caustic_from_grid
    (sqrtFn : ℚ → ℚ) (fc : ContourFinder) (p : Plane) : Except String (List Point) := do
  let curve ← p.tangential_critical_curve_from_grid sqrtFn fc
  if curve = [] then
    return []
  else
    return gridSub curve (p.deflections_from_grid curve)

/-- The grid objects of the newer API, as consumed by
`radial_critical_curve_from_grid` (plane.py:467-493): a coordinate array with
`pixel_scale`, `sub_grid_size` and a mask origin. -/
structure GridObj where
  points : Grid
  pixel_scale : ℚ
  sub_grid_size : ℚ
  origin : Point

/-- `Plane.radial_critical_curve_from_grid` (plane.py:467-493): same shape as
the tangential version but on the radial eigenvalue map, taking the pixel
scale and origin from the passed grid object. -/
def Plane.radial_critical_curve_from_grid
    (sqrtFn : ℚ → ℚ) (fc : ContourFinder) (p : Plane) (grid : GridObj) :
    Except String (List Point) := do
  let lam2d ← p.radial_eigen_value_from_shear_and_convergence sqrtFn
  let idx := fc lam2d
  if idx = [] then
    return []
  else
    let shape := (lam2d.length, (lam2d.headD []).length)
    let ps := grid.pixel_scale / grid.sub_grid_size
    let curve := grid_pixels_1d_to_grid_arcsec_1d (idx.headD []) shape (ps, ps) grid.origin
    return curve.map (fun pt => (pt.1 - grid.pixel_scale / 2, pt.2 + grid.pixel_scale / 2))

/-- `Plane.radial_caustic_from_grid` (plane.py:495-506):
`radial_critical_curve - deflections_from_grid(radial_critical_curve)`,
with `[]` for an empty curve. -/
def Plane.radial_caustic_from_grid
    (sqrtFn : ℚ → ℚ) (fc : ContourFinder) (p : Plane) (grid : GridObj) :
    Except String (List Point) := do
  let curve ← p.radial_critical_curve_from_grid sqrtFn fc grid
  if curve = [] then
    return []
  else
    return gridSub curve (p.deflections_from_grid curve)

/-! ## Cosmology service and Tracer

`ray_tracing.py` and `cosmology_util.py` are not among the sources (only
their test-suite is), so the definitions below are modelled from the
specification (§2, §4.1, §4.2, §6) and cross-checked against the expected
values of `test_ray_tracing.py`. -/

/-- Modelled from the spec: the external `CosmologyService` (astropy).  It is
determined by a comoving-distance function χ; in the flat cosmologies the
repository uses, both angular-diameter distances are derived from χ. -/
structure Cosmology where
  comoving : ℚ → ℚ

/-- Modelled from the spec: `angular_diameter_distance_to_earth(z)` of the
missing `cosmology_util` module — astropy's `angular_diameter_distance(z)`,
which equals `χ(z) / (1 + z)` in a flat cosmology. -/
def Cosmology.angular_diameter_distance_to_earth (c : Cosmology) (z : ℚ) : ℚ :=
  c.comoving z / (1 + z)

/-- Modelled from the spec: `angular_diameter_distance_between(z1, z2)` of the
missing `cosmology_util` module — astropy's
`angular_diameter_distance_z1z2(z1, z2)`, which equals
`(χ(z2) - χ(z1)) / (1 + z2)` in a flat cosmology; the spec (§4.2) records
that this is negative for `z1 > z2` and zero for `z1 == z2`. -/
def Cosmology.angular_diameter_distance_between (c : Cosmology) (z1 z2 : ℚ) : ℚ :=
  (c.comoving z2 - c.comoving z1) / (1 + z2)

/-- The multi-plane ray tracer: an ordered list of planes and a cosmology
(spec §3). -/
structure Tracer where
  planes : List Plane
  cosmology : Cosmology

/-- The redshifts of the tracer's planes, in plane order. -/
def Tracer.plane_redshifts (t : Tracer) : List ℚ := t.planes.map (fun p => p.redshift)

/-- `total_planes`: the number of planes. -/
def Tracer.total_planes (t : Tracer) : ℕ := t.planes.length

/-- Placeholder plane for out-of-range indexing (never reached under the
index bounds of the theorems below; it has no galaxies and hence no mass). -/
def default_plane : Plane := ⟨0, [], none⟩

/-- Modelled from the spec: `Tracer.from_galaxies` (§4.1) — group the
galaxies into one plane per distinct redshift, planes in increasing redshift
order, galaxies of equal redshift kept in their original relative order
(a stable group-by-key-then-sort-keys operation). -/
def Tracer.from_galaxies (galaxies : List Galaxy) (c : Cosmology) : Tracer :=
  let redshifts := ((galaxies.map (fun g => g.redshift)).dedup).mergeSort (fun a b => a ≤ b)
  ⟨redshifts.map (fun z => ⟨z, galaxies.filter (fun g => g.redshift = z), none⟩), c⟩

/-- Modelled from the spec: `scaling_factor_between_planes(i, j)` (§4.2) —
`β(i,j) = D(z_i, z_j) * D_to_earth(z_last) / (D(z_i, z_last) * D_to_earth(z_j))`
using angular diameter distances, with `z_last` the redshift of the final
plane. -/
def Tracer.scaling_factor_between_planes (t : Tracer) (i j : ℕ) : ℚ :=
  let zs := t.plane_redshifts
  let zi := zs.getD i 0
  let zj := zs.getD j 0
  let zlast := zs.getLastD 0
  (t.cosmology.angular_diameter_distance_between zi zj *
      t.cosmology.angular_diameter_distance_to_earth zlast) /
    (t.cosmology.angular_diameter_distance_between zi zlast *
      t.cosmology.angular_diameter_distance_to_earth zj)

/-- Modelled from the spec: the multi-plane grid-tracing loop of the missing
`traced_grids_of_planes_from_grid` (§4.2, §9) — for each plane index `j` in
turn, start from a copy of the observer grid and, for every earlier plane
`i < j` that has at least one mass-profile-bearing galaxy, subtract
`β(i,j) *` that plane's deflections evaluated at its own already-traced grid;
planes without mass are skipped, leaving the accumulator untouched.
`traced_grids_upto t grid n` is the list of the first `n` traced grids. -/
def Tracer.traced_grids_upto (t : Tracer) (grid : Grid) : ℕ → List Grid
  | 0 => []
  | j + 1 =>
    let prev := t.traced_grids_upto grid j
    let scaled_grid :=
      (List.range j).foldl
        (fun acc i =>
          let plane_i := t.planes.getD i default_plane
          if plane_i.has_mass_profile then
            gridSub acc
              (gridSmul (t.scaling_factor_between_planes i j)
                (plane_i.deflections_from_grid (prev.getD i [])))
          else acc)
        grid
    prev ++ [scaled_grid]

/-- Modelled from the spec: `traced_grids_of_planes_from_grid` (§4.2) — one
traced grid per plane. -/
def Tracer.traced_grids_of_planes_from_grid (t : Tracer) (grid : Grid) : List Grid :=
  t.traced_grids_upto grid t.total_planes

/-- The indices `i < j` of mass-bearing planes: exactly the prior planes that
contribute a scaled deflection to plane `j`'s traced grid. -/
def Tracer.mass_plane_indices (t : Tracer) (j : ℕ) : List ℕ :=
  (List.range j).filter (fun i => (t.planes.getD i default_plane).has_mass_profile)

/-! ## Spec comparators and concrete fixtures -/

/-- The behaviour the spec (§4.3) ascribes to `Plane`'s convergence: the sum
over all galaxies of the per-galaxy convergence evaluated at the *given*
grid, an all-zero array of the grid's shape for an empty plane.  This
definition follows the spec's words; it exists to exhibit how the source's
`Plane.convergence` (which accepts no grid and reads the never-assigned
`self.grid_stack`) diverges from it. -/
def claimed_convergence_from_grid (p : Plane) (grid : Grid) : List ℚ :=
  match p.galaxies with
  | [] => List.replicate grid.length 0
  | g :: rest => sumArrays ((g :: rest).map (fun gal => gal.convergence_from_grid grid))

/-- The behaviour the spec (§4.3) ascribes to `Plane`'s potential, following
the spec's words; see `claimed_convergence_from_grid`. -/
def claimed_potential_from_grid (p : Plane) (grid : Grid) : List ℚ :=
  match p.galaxies with
  | [] => List.replicate grid.length 0
  | g :: rest => sumArrays ((g :: rest).map (fun gal => gal.potential_from_grid grid))

/-- Default galaxy for `List.headD` (used only to phrase "the first galaxy's
redshift" totally). -/
def default_galaxy : Galaxy :=
  ⟨0, false, false, fun _ => 0, fun _ => 0, fun _ => 0, fun _ => (0, 0)⟩

/-- A concrete mass-bearing galaxy at redshift 1/2 with simple rational
profile functions. -/
def example_mass_galaxy : Galaxy where
  redshift := 1/2
  has_light_profile := false
  has_mass_profile := true
  lightFn := fun _ => 0
  convergenceFn := fun pt => pt.1 + pt.2
  potentialFn := fun pt => pt.1 * pt.2
  deflectionFn := fun pt => (pt.2, pt.1)

/-- A concrete two-point grid. -/
def example_grid : Grid := [(1, 2), (3, 4)]

/-- A mass-bearing galaxy at redshift 1/2 whose deflection field is the
constant (1/4, 1/8). -/
def witness_galaxy : Galaxy where
  redshift := 1/2
  has_light_profile := false
  has_mass_profile := true
  lightFn := fun _ => 0
  convergenceFn := fun _ => 0
  potentialFn := fun _ => 0
  deflectionFn := fun _ => (1/4, 1/8)

/-- A massless galaxy at redshift 1. -/
def witness_source_galaxy : Galaxy where
  redshift := 1
  has_light_profile := false
  has_mass_profile := false
  lightFn := fun _ => 0
  convergenceFn := fun _ => 0
  potentialFn := fun _ => 0
  deflectionFn := fun _ => (0, 0)

/-- A toy flat cosmology whose comoving distance is the identity. -/
def witness_cosmology : Cosmology := ⟨fun z => z⟩

/-- A concrete two-plane tracer: a mass-bearing plane at z = 1/2 and a
massless source plane at z = 1. -/
def witness_tracer : Tracer :=
  ⟨[⟨1/2, [witness_galaxy], none⟩, ⟨1, [witness_source_galaxy], none⟩], witness_cosmology⟩

/-- A one-point grid. -/
def witness_grid : Grid := [(1, 2)]

/-- A two-plane tracer none of whose galaxies has a mass profile. -/
def no_mass_tracer : Tracer :=
  ⟨[⟨1/2, [⟨1/2, false, false, fun _ => 0, fun _ => 0, fun _ => 0, fun _ => (0, 0)⟩], none⟩,
    ⟨1, [witness_source_galaxy], none⟩], witness_cosmology⟩

/-- An unordered galaxy list (redshifts 1 then 1/2) for the grouping claim. -/
def grouping_galaxies : List Galaxy := [witness_source_galaxy, witness_galaxy]

/-! ## Helper lemmas -/

theorem psub_zero (a : Point) : psub a (0, 0) = a := by
  cases a; simp [psub]

theorem psub_psub (a x s : Point) : psub (psub a x) s = psub a (padd x s) := by
  cases a; cases x; cases s
  simp only [psub, padd, Prod.mk.injEq]
  constructor <;> ring

theorem getD_zipWith {α : Type} (f : α → α → α) (a b : List α) (k : ℕ) (d : α)
    (ha : k < a.length) (hb : k < b.length) :
    (List.zipWith f a b).getD k d = f (a.getD k d) (b.getD k d) := by
  have hz : k < (List.zipWith f a b).length := by
    simp only [List.length_zipWith]; omega
  rw [List.getD_eq_getElem _ _ hz, List.getD_eq_getElem _ _ ha, List.getD_eq_getElem _ _ hb]
  exact List.getElem_zipWith

theorem gridSub_getD (a b : Grid) (k : ℕ) (ha : k < a.length) (hb : k < b.length) :
    (gridSub a b).getD k (0, 0) = psub (a.getD k (0, 0)) (b.getD k (0, 0)) :=
  getD_zipWith psub a b k (0, 0) ha hb

theorem gridSmul_getD (c : ℚ) (g : Grid) (k : ℕ) (h : k < g.length) :
    (gridSmul c g).getD k (0, 0) = psmul c (g.getD k (0, 0)) := by
  have hm : k < (gridSmul c g).length := by simpa [gridSmul] using h
  rw [List.getD_eq_getElem _ _ hm, List.getD_eq_getElem _ _ h]
  simp [gridSmul]

theorem gridSub_length (a b : Grid) : (gridSub a b).length = min a.length b.length := by
  simp [gridSub]

theorem gridSmul_length (c : ℚ) (g : Grid) : (gridSmul c g).length = g.length := by
  simp [gridSmul]

theorem foldl_zip_padd_length (bs : List Grid) (a : Grid) (L : ℕ) (ha : a.length = L)
    (hbs : ∀ g ∈ bs, g.length = L) :
    (bs.foldl (fun acc b => List.zipWith padd acc b) a).length = L := by
  induction bs generalizing a with
  | nil => simpa using ha
  | cons b bs ih =>
    simp only [List.foldl_cons]
    exact ih (List.zipWith padd a b)
      (by rw [List.length_zipWith, ha, hbs b (by simp)]; omega)
      (fun g hg => hbs g (by simp [hg]))

theorem sumGrids_length (l : List Grid) (L : ℕ) (hne : l ≠ [])
    (h : ∀ g ∈ l, g.length = L) : (sumGrids l).length = L := by
  match l, hne with
  | a :: rest, _ =>
    simp only [sumGrids]
    exact foldl_zip_padd_length rest a L (h a (by simp)) (fun g hg => h g (by simp [hg]))

theorem galaxy_deflections_length (g : Galaxy) (grid : Grid) :
    (g.deflections_from_grid grid).length = grid.length := by
  unfold Galaxy.deflections_from_grid
  split <;> simp

theorem plane_deflections_length (p : Plane) (grid : Grid) :
    (p.deflections_from_grid grid).length = grid.length := by
  unfold Plane.deflections_from_grid
  split
  · simp
  · next g rest _ =>
    exact sumGrids_length _ _ (by simp) (by
      intro x hx
      simp only [List.mem_map] at hx
      obtain ⟨gal, _, rfl⟩ := hx
      exact galaxy_deflections_length gal grid)

/-- The conditional-subtraction fold keeps the accumulator's length. -/
theorem fold_cond_sub_length (is : List ℕ) (c : ℕ → Bool) (f : ℕ → Grid) (L : ℕ)
    (hL : ∀ i ∈ is, (f i).length = L) (acc : Grid) (hacc : acc.length = L) :
    (is.foldl (fun a i => if c i then gridSub a (f i) else a) acc).length = L := by
  induction is generalizing acc with
  | nil => simpa using hacc
  | cons i is ih =>
    simp only [List.foldl_cons]
    by_cases hc : c i
    · simp only [hc, if_true]
      exact ih (fun x hx => hL x (by simp [hx])) _
        (by rw [gridSub_length, hacc, hL i (by simp)]; omega)
    · simp only [hc, Bool.false_eq_true, if_false]
      exact ih (fun x hx => hL x (by simp [hx])) _ hacc

/-- Pointwise value of the conditional-subtraction fold: the accumulator minus
the sum of the selected contributions. -/
theorem fold_cond_sub_getD (is : List ℕ) (c : ℕ → Bool) (f : ℕ → Grid) (L : ℕ)
    (hL : ∀ i ∈ is, (f i).length = L) (acc : Grid) (hacc : acc.length = L)
    (k : ℕ) (hk : k < L) :
    (is.foldl (fun a i => if c i then gridSub a (f i) else a) acc).getD k (0, 0) =
      psub (acc.getD k (0, 0))
        (psum ((is.filter c).map (fun i => (f i).getD k (0, 0)))) := by
  induction is generalizing acc with
  | nil =>
    simp only [List.foldl_nil, List.filter_nil, List.map_nil]
    rw [show psum [] = ((0 : ℚ), (0 : ℚ)) from rfl, psub_zero]
  | cons i is ih =>
    simp only [List.foldl_cons, List.filter_cons]
    by_cases hc : c i
    · simp only [hc, if_true, List.map_cons]
      rw [ih (fun x hx => hL x (by simp [hx])) _
        (by rw [gridSub_length, hacc, hL i (by simp)]; omega)]
      rw [gridSub_getD _ _ _ (by omega) (by rw [hL i (by simp)]; omega)]
      rw [psub_psub]
      rfl
    · simp only [hc, Bool.false_eq_true, if_false]
      exact ih (fun x hx => hL x (by simp [hx])) _ hacc

theorem traced_upto_length (t : Tracer) (grid : Grid) (n : ℕ) :
    (t.traced_grids_upto grid n).length = n := by
  induction n with
  | zero => rfl
  | succ n ih => simp [Tracer.traced_grids_upto, ih]

/-- Entries below `n` are stable as the recursion extends. -/
theorem traced_upto_stable (t : Tracer) (grid : Grid) :
    ∀ m n, n ≤ m → ∀ i, i < n →
      (t.traced_grids_upto grid m).getD i [] = (t.traced_grids_upto grid n).getD i [] := by
  intro m
  induction m with
  | zero => intro n hn i hi; omega
  | succ m ih =>
    intro n hn i hi
    rcases Nat.lt_or_ge n (m + 1) with hlt | hge
    · have : (t.traced_grids_upto grid (m + 1)).getD i [] =
          (t.traced_grids_upto grid m).getD i [] := by
        show ((t.traced_grids_upto grid m) ++ _).getD i [] = _
        simp [List.getD, List.getElem?_append_left
          (by rw [traced_upto_length]; omega : i < (t.traced_grids_upto grid m).length)]
      rw [this, ih n (by omega) i hi]
    · have : n = m + 1 := by omega
      subst this; rfl

theorem getD_concat_length {α : Type} (l : List α) (x d : α) : (l ++ [x]).getD l.length d = x := by
  simp [List.getD_append_right]

theorem getD_concat_of_length {α : Type} (l : List α) (x d : α) (i : ℕ) (h : i = l.length) :
    (l ++ [x]).getD i d = x := by
  subst h; exact getD_concat_length l x d

theorem getD_append_lt {α : Type} (l₁ l₂ : List α) (i : ℕ) (h : i < l₁.length) (d : α) :
    (l₁ ++ l₂).getD i d = l₁.getD i d := by
  simp [List.getD, List.getElem?_append_left h]

/-- Unfolding of one step of the tracing recursion. -/
theorem traced_upto_succ (t : Tracer) (grid : Grid) (j : ℕ) :
    t.traced_grids_upto grid (j + 1) =
      t.traced_grids_upto grid j ++
        [(List.range j).foldl
          (fun acc i =>
            if (t.planes.getD i default_plane).has_mass_profile then
              gridSub acc
                (gridSmul (t.scaling_factor_between_planes i j)
                  ((t.planes.getD i default_plane).deflections_from_grid
                    ((t.traced_grids_upto grid j).getD i [])))
            else acc)
          grid] := rfl

/-- Every traced grid has the shape of the input grid. -/
theorem traced_entry_length (t : Tracer) (grid : Grid) :
    ∀ n i, i < n → ((t.traced_grids_upto grid n).getD i []).length = grid.length := by
  intro n
  induction n with
  | zero => intro i hi; omega
  | succ n ih =>
    intro i hi
    rcases Nat.lt_or_ge i n with hlt | hge
    · rw [traced_upto_stable t grid (n + 1) n (by omega) i hlt]
      exact ih i hlt
    · have hin : i = n := by omega
      subst hin
      rw [traced_upto_succ]
      rw [getD_concat_of_length _ _ _ _ (traced_upto_length t grid i).symm]
      exact fold_cond_sub_length _ _ _ grid.length
        (fun x hx => by
          rw [gridSmul_length, plane_deflections_length]
          exact ih x (List.mem_range.mp hx))
        grid rfl

theorem foldl_cond_no_op {α β : Type} (is : List β) (c : β → Bool) (f : α → β → α)
    (acc : α) (h : ∀ i ∈ is, c i = false) :
    is.foldl (fun a i => if c i then f a i else a) acc = acc := by
  induction is generalizing acc with
  | nil => rfl
  | cons i is ih =>
    simp only [List.foldl_cons, h i (by simp), Bool.false_eq_true, if_false]
    exact ih acc (fun x hx => h x (by simp [hx]))

/-! ## Claim theorems -/

/-- C1: for every Tracer (with redshift-ordered planes) and input grid, the
traced grid at each plane `j ≥ 1` is the observer grid minus the sum, over
every earlier plane `i < j` holding at least one mass-profile-bearing galaxy,
of `β(i,j)` times plane `i`'s deflection field evaluated at plane `i`'s own
already-traced grid (stated pointwise at every grid index `k`). -/
theorem traced_grid_is_observer_grid_minus_scaled_deflection_sum
    (t : Tracer) (grid : Grid) (j : ℕ) (h1 : 1 ≤ j) (hj : j < t.total_planes)
    (k : ℕ) (hk : k < grid.length) :
    ((t.traced_grids_of_planes_from_grid grid).getD j []).getD k (0, 0) =
      psub (grid.getD k (0, 0))
        (psum ((t.mass_plane_indices j).map (fun i =>
          psmul (t.scaling_factor_between_planes i j)
            (((t.planes.getD i default_plane).deflections_from_grid
              ((t.traced_grids_of_planes_from_grid grid).getD i [])).getD k (0, 0))))) := by
  unfold Tracer.traced_grids_of_planes_from_grid
  rw [traced_upto_stable t grid t.total_planes (j + 1) (by omega) j (by omega)]
  rw [traced_upto_succ]
  rw [getD_concat_of_length _ _ _ _ (traced_upto_length t grid j).symm]
  rw [fold_cond_sub_getD _ _ _ grid.length
    (fun x hx => by
      rw [gridSmul_length, plane_deflections_length]
      exact traced_entry_length t grid j x (List.mem_range.mp hx))
    grid rfl k hk]
  show psub _ (psum _) = psub _ (psum _)
  apply congrArg (psub (grid.getD k (0, 0)))
  apply congrArg psum
  apply List.map_congr_left
  intro i hi
  have hij : i < j := List.mem_range.mp (List.mem_of_mem_filter hi)
  rw [gridSmul_getD _ _ _ (by
    rw [plane_deflections_length, traced_entry_length t grid j i hij]
    exact hk)]
  rw [traced_upto_stable t grid t.total_planes j (by omega) i hij]

/-- C3: for every Tracer and input grid, the traced-grids sequence has one
entry per plane, and its first entry is the input grid unchanged, whatever
the mass content of the planes. -/
theorem traced_grids_length_and_first_entry (t : Tracer) (grid : Grid)
    (h : 0 < t.total_planes) :
    (t.traced_grids_of_planes_from_grid grid).length = t.total_planes ∧
      (t.traced_grids_of_planes_from_grid grid).getD 0 [] = grid := by
  refine ⟨traced_upto_length t grid t.total_planes, ?_⟩
  unfold Tracer.traced_grids_of_planes_from_grid
  rw [traced_upto_stable t grid t.total_planes 1 h 0 (by omega)]
  rfl

/-- C4: if no plane of the Tracer holds any galaxy with a mass profile, every
traced grid equals the input grid exactly (the mass-free planes are skipped,
so no arithmetic at all touches the coordinates). -/
theorem traced_grids_no_mass_profile_identity (t : Tracer) (grid : Grid)
    (hnm : ∀ p ∈ t.planes, p.has_mass_profile = false)
    (k : ℕ) (hk : k < t.total_planes) :
    (t.traced_grids_of_planes_from_grid grid).getD k [] = grid := by
  have hcond : ∀ i, (t.planes.getD i default_plane).has_mass_profile = false := by
    intro i
    rcases Nat.lt_or_ge i t.planes.length with h | h
    · rw [List.getD_eq_getElem _ _ h]
      exact hnm _ (t.planes.getElem_mem h)
    · rw [List.getD_eq_default _ _ h]
      rfl
  have aux : ∀ n k, k < n → (t.traced_grids_upto grid n).getD k [] = grid := by
    intro n
    induction n with
    | zero => intro k hk; omega
    | succ n ih =>
      intro k hk
      rcases Nat.lt_or_ge k n with hlt | hge
      · rw [traced_upto_stable t grid (n + 1) n (by omega) k hlt]
        exact ih k hlt
      · have hkn : k = n := by omega
        subst hkn
        rw [traced_upto_succ]
        rw [getD_concat_of_length _ _ _ _ (traced_upto_length t grid k).symm]
        exact foldl_cond_no_op _ _ _ grid (fun i _ => hcond i)
  exact aux t.total_planes k hk

theorem getD_length_sub_one {α : Type} (l : List α) (h : l ≠ []) (d : α) :
    l.getD (l.length - 1) d = l.getLastD d := by
  have hl : 0 < l.length := List.length_pos.mpr h
  rw [List.getD_eq_getElem l d (by omega)]
  rw [List.getLastD_eq_getLast?, List.getLast?_eq_getElem?]
  rw [List.getElem?_eq_getElem (by omega)]
  simp

/-- C2: the scaling factor is
`β(i,j) = D(z_i,z_j) · D_earth(z_last) / (D(z_i,z_last) · D_earth(z_j))`
using angular diameter distances; it is 1 whenever plane `j` is the last
plane (the distances being nonzero), and in particular a two-plane tracer
has `β(0,1) = 1` exactly. -/
theorem scaling_factor_formula_and_last_plane_unity (t : Tracer) (i j : ℕ) :
    (t.scaling_factor_between_planes i j =
      (t.cosmology.angular_diameter_distance_between
          (t.plane_redshifts.getD i 0) (t.plane_redshifts.getD j 0) *
        t.cosmology.angular_diameter_distance_to_earth (t.plane_redshifts.getLastD 0)) /
      (t.cosmology.angular_diameter_distance_between
          (t.plane_redshifts.getD i 0) (t.plane_redshifts.getLastD 0) *
        t.cosmology.angular_diameter_distance_to_earth (t.plane_redshifts.getD j 0))) ∧
    (j = t.total_planes - 1 → t.planes ≠ [] →
      t.cosmology.angular_diameter_distance_between
        (t.plane_redshifts.getD i 0) (t.plane_redshifts.getLastD 0) ≠ 0 →
      t.cosmology.angular_diameter_distance_to_earth (t.plane_redshifts.getLastD 0) ≠ 0 →
      t.scaling_factor_between_planes i j = 1) ∧
    (t.total_planes = 2 → i = 0 → j = 1 →
      t.cosmology.angular_diameter_distance_between
        (t.plane_redshifts.getD 0 0) (t.plane_redshifts.getLastD 0) ≠ 0 →
      t.cosmology.angular_diameter_distance_to_earth (t.plane_redshifts.getLastD 0) ≠ 0 →
      t.scaling_factor_between_planes 0 1 = 1) := by
  have hlast : ∀ jj, jj = t.total_planes - 1 → t.planes ≠ [] →
      t.cosmology.angular_diameter_distance_between
        (t.plane_redshifts.getD i 0) (t.plane_redshifts.getLastD 0) ≠ 0 →
      t.cosmology.angular_diameter_distance_to_earth (t.plane_redshifts.getLastD 0) ≠ 0 →
      t.scaling_factor_between_planes i jj = 1 := by
    intro jj hjj hne hD hDe
    have hzne : t.plane_redshifts ≠ [] := by
      simpa [Tracer.plane_redshifts] using hne
    have hzlen : t.plane_redshifts.length = t.total_planes := by
      simp [Tracer.plane_redshifts, Tracer.total_planes]
    have hgetlast : t.plane_redshifts.getD jj 0 = t.plane_redshifts.getLastD 0 := by
      rw [hjj, ← hzlen, getD_length_sub_one _ hzne]
    show (t.cosmology.angular_diameter_distance_between
          (t.plane_redshifts.getD i 0) (t.plane_redshifts.getD jj 0) *
        t.cosmology.angular_diameter_distance_to_earth (t.plane_redshifts.getLastD 0)) /
      (t.cosmology.angular_diameter_distance_between
          (t.plane_redshifts.getD i 0) (t.plane_redshifts.getLastD 0) *
        t.cosmology.angular_diameter_distance_to_earth (t.plane_redshifts.getD jj 0)) = 1
    rw [hgetlast]
    exact div_self (mul_ne_zero hD hDe)
  refine ⟨rfl, hlast j, ?_⟩
  intro h2 hi hj hD hDe
  subst hi; subst hj
  have hne : t.planes ≠ [] := by
    intro hnil
    rw [Tracer.total_planes, hnil] at h2
    simp at h2
  exact hlast 1 (by omega) hne hD hDe

/-- C5: tracer construction from a non-empty galaxy list yields exactly one
plane per distinct redshift, in strictly increasing redshift order, with
equal-redshift galaxies placed in the same plane in their original relative
input order (each plane's galaxy list is precisely the input list filtered to
that redshift, which preserves input order). -/
theorem tracer_from_galaxies_groups_planes_by_redshift (gs : List Galaxy) (c : Cosmology)
    (hne : gs ≠ []) :
    (Tracer.from_galaxies gs c).total_planes = (gs.map (fun g => g.redshift)).dedup.length ∧
    List.Chain' (· < ·) ((Tracer.from_galaxies gs c).planes.map (fun p => p.redshift)) ∧
    (∀ p ∈ (Tracer.from_galaxies gs c).planes,
      p.galaxies = gs.filter (fun g => g.redshift = p.redshift)) ∧
    (Tracer.from_galaxies gs c).planes ≠ [] := by
  have hperm : List.Perm (((gs.map (fun g => g.redshift)).dedup).mergeSort (fun a b => a ≤ b))
      ((gs.map (fun g => g.redshift)).dedup) := List.mergeSort_perm _ _
  have hplanes : (Tracer.from_galaxies gs c).planes =
      (((gs.map (fun g => g.redshift)).dedup).mergeSort (fun a b => a ≤ b)).map
        (fun z => (⟨z, gs.filter (fun g => g.redshift = z), none⟩ : Plane)) := rfl
  refine ⟨?_, ?_, ?_, ?_⟩
  · show (Tracer.from_galaxies gs c).planes.length = _
    rw [hplanes, List.length_map, hperm.length_eq]
  · rw [hplanes, List.map_map]
    have hid : ((fun p : Plane => p.redshift) ∘
        (fun z => (⟨z, gs.filter (fun g => g.redshift = z), none⟩ : Plane))) = id := rfl
    rw [hid, List.map_id]
    have hsorted : (((gs.map (fun g => g.redshift)).dedup).mergeSort
        (fun a b => a ≤ b)).Pairwise (fun a b => a ≤ b) := by
      have h := @List.sorted_mergeSort ℚ (fun a b : ℚ => a ≤ b)
        (fun a b c₁ => by
          simp only [decide_eq_true_eq]
          exact le_trans)
        (fun a b => by
          simpa using le_total a b)
        ((gs.map (fun g => g.redshift)).dedup)
      exact h.imp (fun hab => by simpa using hab)
    have hnodup : (((gs.map (fun g => g.redshift)).dedup).mergeSort
        (fun a b => a ≤ b)).Nodup :=
      hperm.nodup_iff.mpr (List.nodup_dedup _)
    exact List.chain'_iff_pairwise.mpr
      ((hsorted.and hnodup).imp (fun hab => lt_of_le_of_ne hab.1 hab.2))
  · intro p hp
    rw [hplanes] at hp
    simp only [List.mem_map] at hp
    obtain ⟨z, _, rfl⟩ := hp
    rfl
  · rw [hplanes]
    simp only [ne_eq, List.map_eq_nil_iff]
    intro hnil
    have hd : (gs.map (fun g => g.redshift)).dedup = [] := by
      have hlen := hperm.length_eq
      rw [hnil] at hlen
      exact List.length_eq_zero.mp hlen.symm
    have hgs : gs.map (fun g => g.redshift) = [] := (List.dedup_eq_nil _).mp hd
    exact hne (List.map_eq_nil_iff.mp hgs)

/-- C7: `Plane` construction errors exactly when `redshift=None` and the
galaxy list is empty or the galaxies disagree on redshift; with
`redshift=None` and agreeing galaxies the stored redshift is the galaxies'
one; with any concrete redshift construction always succeeds and stores the
supplied value with no consistency check against the galaxies. -/
theorem plane_init_error_iff_redshift_underdetermined (r : Option ℚ) (gs : List Galaxy) :
    ((∃ e, plane_init r gs = .error e) ↔
      r = none ∧ (gs = [] ∨ ∃ g ∈ gs, g.redshift ≠ (gs.headD default_galaxy).redshift)) ∧
    (∀ z, r = some z → plane_init r gs = .ok ⟨z, gs, none⟩) ∧
    (r = none → gs ≠ [] →
      (∀ g ∈ gs, g.redshift = (gs.headD default_galaxy).redshift) →
      plane_init r gs = .ok ⟨(gs.headD default_galaxy).redshift, gs, none⟩) := by
  have hbool : ∀ (g0 : Galaxy) (rest : List Galaxy),
      ((g0 :: rest).all (fun g => g0.redshift == g.redshift) = true) ↔
        ∀ g ∈ g0 :: rest, g.redshift = g0.redshift := by
    intro g0 rest
    simp only [List.all_eq_true, beq_iff_eq]
    exact ⟨fun h g hg => (h g hg).symm, fun h g hg => (h g hg).symm⟩
  refine ⟨?_, ?_, ?_⟩
  · constructor
    · rintro ⟨e, he⟩
      match r, gs, he with
      | some z, gs, he => simp [plane_init] at he
      | none, [], _ => exact ⟨rfl, Or.inl rfl⟩
      | none, g0 :: rest, he =>
        refine ⟨rfl, Or.inr ?_⟩
        by_cases hall : ∀ g ∈ g0 :: rest, g.redshift = g0.redshift
        · rw [plane_init, if_pos ((hbool g0 rest).mpr hall)] at he
          simp at he
        · push_neg at hall
          obtain ⟨g, hg, hgr⟩ := hall
          exact ⟨g, hg, by simpa using hgr⟩
    · rintro ⟨hr, hcase⟩
      subst hr
      match gs, hcase with
      | [], _ => exact ⟨_, rfl⟩
      | g0 :: rest, hcase =>
        rcases hcase with hnil | ⟨g, hg, hgr⟩
        · simp at hnil
        · have hnall : ¬((g0 :: rest).all (fun g => g0.redshift == g.redshift) = true) := by
            intro hAll
            have := (hbool g0 rest).mp hAll g hg
            simp only [List.headD_cons] at hgr
            exact hgr this
          exact ⟨_, by rw [plane_init, if_neg hnall]⟩
  · intro z hz
    subst hz
    rfl
  · intro hr hne hall
    subst hr
    match gs, hne with
    | g0 :: rest, _ =>
      simp only [List.headD_cons] at hall ⊢
      have hAll : ((g0 :: rest).all (fun g => g0.redshift == g.redshift) = true) :=
        (hbool g0 rest).mpr hall
      rw [plane_init, if_pos hAll]

/-- C10: the modelled `angular_diameter_distance_between(z_i, z_j)` is
negative whenever `z_i > z_j`, exactly zero when `z_i = z_j`, and the
distance to earth is never negative — for any cosmology whose comoving
distance is zero at redshift zero and strictly increasing on nonnegative
redshifts. -/
theorem angular_diameter_distance_between_sign_convention (c : Cosmology)
    (hmono : StrictMonoOn c.comoving (Set.Ici (0 : ℚ))) (h0 : c.comoving 0 = 0)
    (z1 z2 : ℚ) (hz1 : 0 ≤ z1) (hz2 : 0 ≤ z2) :
    (z2 < z1 → c.angular_diameter_distance_between z1 z2 < 0) ∧
    (z1 = z2 → c.angular_diameter_distance_between z1 z2 = 0) ∧
    0 ≤ c.angular_diameter_distance_to_earth z1 := by
  refine ⟨?_, ?_, ?_⟩
  · intro hlt
    apply div_neg_of_neg_of_pos
    · have := hmono (Set.mem_Ici.mpr hz2) (Set.mem_Ici.mpr hz1) hlt
      linarith
    · linarith
  · intro heq
    subst heq
    simp [Cosmology.angular_diameter_distance_between]
  · apply div_nonneg
    · rcases eq_or_lt_of_le hz1 with heq | hlt
      · rw [← heq, h0]
      · have := hmono (Set.mem_Ici.mpr le_rfl) (Set.mem_Ici.mpr hz1) hlt
        rw [h0] at this
        linarith
    · linarith

/-- C6 (code bug): `Plane.convergence` and `Plane.potential` accept no grid
argument and read `self.grid_stack`, an attribute `Plane.__init__` never
assigns — so on the concrete plane built by the constructor they produce no
array at all, while the spec-described behaviour (their own docstrings
document a `grid` parameter) yields the per-galaxy sum at the given grid;
`profile_image_from_grid` and `deflections_from_grid`, by contrast, do
aggregate at the given grid as the claim states. -/
theorem convergence_and_potential_read_unassigned_grid_stack :
    plane_init (some (1/2)) [example_mass_galaxy] =
      .ok ⟨1/2, [example_mass_galaxy], none⟩ ∧
    Plane.convergence ⟨1/2, [example_mass_galaxy], none⟩ = none ∧
    Plane.potential ⟨1/2, [example_mass_galaxy], none⟩ = none ∧
    claimed_convergence_from_grid ⟨1/2, [example_mass_galaxy], none⟩ example_grid = [3, 7] ∧
    claimed_potential_from_grid ⟨1/2, [example_mass_galaxy], none⟩ example_grid = [2, 12] ∧
    Plane.profile_image_from_grid ⟨1/2, [example_mass_galaxy], none⟩ example_grid = [0, 0] ∧
    Plane.deflections_from_grid ⟨1/2, [example_mass_galaxy], none⟩ example_grid =
      [(2, 1), (4, 3)] := by
  refine ⟨rfl, rfl, rfl, ?_, ?_, ?_, ?_⟩ <;>
    norm_num [claimed_convergence_from_grid, claimed_potential_from_grid,
      Plane.profile_image_from_grid, Plane.deflections_from_grid,
      Galaxy.convergence_from_grid, Galaxy.potential_from_grid,
      Galaxy.profile_image_from_grid, Galaxy.deflections_from_grid,
      example_mass_galaxy, example_grid, sumArrays, sumGrids,
      List.replicate_succ]

/-- C8 (code bug): every call of `Plane.magnification_from_grid` — and of the
eigenvalue route through `tangential_eigen_value_from_shear_and_convergence`
and `radial_eigen_value_from_shear_and_convergence` — fails with `NameError`,
because the bodies of the `lensing_jacobian*` methods reference the bare name
`grid`, which is bound nowhere; no determinant- or eigenvalue-based
magnification is ever produced, so the two can never be compared. -/
theorem magnification_routes_raise_name_error (p : Plane) (sqrtFn : ℚ → ℚ) :
    p.magnification_from_grid = .error nameErrorGrid ∧
    p.tangential_eigen_value_from_shear_and_convergence sqrtFn = .error nameErrorGrid ∧
    p.radial_eigen_value_from_shear_and_convergence sqrtFn = .error nameErrorGrid :=
  ⟨rfl, rfl, rfl⟩

/-- C9 (code bug): every call of the critical-curve and caustic methods fails
with `NameError` (raised in the `lensing_jacobian` chain they depend on)
before the empty-contour check `if ... == []: return []` can ever run — no
input, with or without a zero contour, yields an empty sequence. -/
theorem critical_curves_and_caustics_raise_name_error
    (p : Plane) (g : GridObj) (sqrtFn : ℚ → ℚ) (fc : ContourFinder) :
    p.tangential_critical_curve_from_grid sqrtFn fc = .error nameErrorGrid ∧
    p.radial_critical_curve_from_grid sqrtFn fc g = .error nameErrorGrid ∧
    p.tangential_caustic_from_grid sqrtFn fc = .error nameErrorGrid ∧
    p.radial_caustic_from_grid sqrtFn fc g = .error nameErrorGrid :=
  ⟨rfl, rfl, rfl, rfl⟩

/-! ## Witnesses -/

/-- Witness for C1 at a concrete two-plane tracer, `j = 1`, `k = 0`. -/
theorem traced_grid_recursion_witness :
    1 ≤ 1 ∧ 1 < witness_tracer.total_planes ∧ 0 < witness_grid.length ∧
    ((witness_tracer.traced_grids_of_planes_from_grid witness_grid).getD 1 []).getD 0 (0, 0) =
      psub (witness_grid.getD 0 (0, 0))
        (psum ((witness_tracer.mass_plane_indices 1).map (fun i =>
          psmul (witness_tracer.scaling_factor_between_planes i 1)
            (((witness_tracer.planes.getD i default_plane).deflections_from_grid
              ((witness_tracer.traced_grids_of_planes_from_grid witness_grid).getD i
                [])).getD 0 (0, 0))))) :=
  ⟨le_rfl, by simp [witness_tracer, Tracer.total_planes], by simp [witness_grid],
    traced_grid_is_observer_grid_minus_scaled_deflection_sum witness_tracer witness_grid 1
      le_rfl (by simp [witness_tracer, Tracer.total_planes]) 0 (by simp [witness_grid])⟩

/-- Witness for C2 at the concrete two-plane tracer (redshifts 1/2 and 1,
identity comoving distance): both distances are nonzero and `β(0,1) = 1`. -/
theorem scaling_factor_last_plane_witness :
    witness_tracer.total_planes = 2 ∧
    witness_tracer.cosmology.angular_diameter_distance_between
      (witness_tracer.plane_redshifts.getD 0 0) (witness_tracer.plane_redshifts.getLastD 0) ≠ 0 ∧
    witness_tracer.cosmology.angular_diameter_distance_to_earth
      (witness_tracer.plane_redshifts.getLastD 0) ≠ 0 ∧
    witness_tracer.scaling_factor_between_planes 0 1 = 1 := by
  have h2 : witness_tracer.total_planes = 2 := by simp [witness_tracer, Tracer.total_planes]
  have hD : witness_tracer.cosmology.angular_diameter_distance_between
      (witness_tracer.plane_redshifts.getD 0 0) (witness_tracer.plane_redshifts.getLastD 0) ≠ 0 := by
    norm_num [witness_tracer, witness_cosmology, Tracer.plane_redshifts,
      Cosmology.angular_diameter_distance_between, List.getLastD]
  have hDe : witness_tracer.cosmology.angular_diameter_distance_to_earth
      (witness_tracer.plane_redshifts.getLastD 0) ≠ 0 := by
    norm_num [witness_tracer, witness_cosmology, Tracer.plane_redshifts,
      Cosmology.angular_diameter_distance_to_earth, List.getLastD]
  exact ⟨h2, hD, hDe,
    (scaling_factor_formula_and_last_plane_unity witness_tracer 0 1).2.2 h2 rfl rfl hD hDe⟩

/-- Witness for C3 at the concrete two-plane tracer. -/
theorem traced_grids_length_and_first_entry_witness :
    0 < witness_tracer.total_planes ∧
    (witness_tracer.traced_grids_of_planes_from_grid witness_grid).length =
      witness_tracer.total_planes ∧
    (witness_tracer.traced_grids_of_planes_from_grid witness_grid).getD 0 [] = witness_grid := by
  have h0 : 0 < witness_tracer.total_planes := by simp [witness_tracer, Tracer.total_planes]
  have h := traced_grids_length_and_first_entry witness_tracer witness_grid h0
  exact ⟨h0, h.1, h.2⟩

/-- Witness for C4 at a concrete mass-free two-plane tracer: the traced grid
at plane 1 is the input grid, exactly. -/
theorem traced_grids_no_mass_witness :
    (∀ p ∈ no_mass_tracer.planes, p.has_mass_profile = false) ∧
    1 < no_mass_tracer.total_planes ∧
    (no_mass_tracer.traced_grids_of_planes_from_grid witness_grid).getD 1 [] = witness_grid := by
  have hnm : ∀ p ∈ no_mass_tracer.planes, p.has_mass_profile = false := by
    intro p hp
    simp only [no_mass_tracer, List.mem_cons, List.mem_singleton, List.not_mem_nil,
      or_false] at hp
    rcases hp with rfl | rfl <;> rfl
  have h1 : 1 < no_mass_tracer.total_planes := by simp [no_mass_tracer, Tracer.total_planes]
  exact ⟨hnm, h1, traced_grids_no_mass_profile_identity no_mass_tracer witness_grid hnm 1 h1⟩

/-- Witness for C5 at a concrete two-galaxy list with redshifts 1 and 1/2. -/
theorem tracer_grouping_witness :
    grouping_galaxies ≠ [] ∧
    (Tracer.from_galaxies grouping_galaxies witness_cosmology).total_planes =
      (grouping_galaxies.map (fun g => g.redshift)).dedup.length ∧
    List.Chain' (· < ·)
      ((Tracer.from_galaxies grouping_galaxies witness_cosmology).planes.map
        (fun p => p.redshift)) ∧
    (∀ p ∈ (Tracer.from_galaxies grouping_galaxies witness_cosmology).planes,
      p.galaxies = grouping_galaxies.filter (fun g => g.redshift = p.redshift)) ∧
    (Tracer.from_galaxies grouping_galaxies witness_cosmology).planes ≠ [] :=
  have h := tracer_from_galaxies_groups_planes_by_redshift grouping_galaxies
    witness_cosmology (List.cons_ne_nil _ _)
  ⟨List.cons_ne_nil _ _, h.1, h.2.1, h.2.2.1, h.2.2.2⟩

/-- Witness for C7: the three construction modes at concrete inputs. -/
theorem plane_init_witness :
    (∃ e, plane_init none ([] : List Galaxy) = .error e) ∧
    plane_init (some 2) [example_mass_galaxy] = .ok ⟨2, [example_mass_galaxy], none⟩ ∧
    plane_init none [witness_galaxy] =
      .ok ⟨([witness_galaxy].headD default_galaxy).redshift, [witness_galaxy], none⟩ :=
  ⟨(plane_init_error_iff_redshift_underdetermined none []).1.mpr ⟨rfl, Or.inl rfl⟩,
   (plane_init_error_iff_redshift_underdetermined (some 2) [example_mass_galaxy]).2.1 2 rfl,
   (plane_init_error_iff_redshift_underdetermined none [witness_galaxy]).2.2 rfl
     (List.cons_ne_nil _ _) (by
       intro g hg
       simp only [List.mem_singleton] at hg
       subst hg
       rfl)⟩

/-- Witness for C10 with the identity comoving distance at redshifts 2 and 1. -/
theorem distance_sign_convention_witness :
    Cosmology.angular_diameter_distance_between ⟨fun z => z⟩ 2 1 < 0 ∧
    Cosmology.angular_diameter_distance_between ⟨fun z => z⟩ 1 1 = 0 ∧
    0 ≤ Cosmology.angular_diameter_distance_to_earth ⟨fun z => z⟩ 2 := by
  have hm : StrictMonoOn (fun z : ℚ => z) (Set.Ici (0 : ℚ)) := fun a _ b _ hab => hab
  have h21 := angular_diameter_distance_between_sign_convention ⟨fun z => z⟩ hm rfl 2 1
    (by norm_num) (by norm_num)
  have h11 := angular_diameter_distance_between_sign_convention ⟨fun z => z⟩ hm rfl 1 1
    (by norm_num) (by norm_num)
  exact ⟨h21.1 (by norm_num), h11.2.1 rfl, h21.2.2⟩

end PyAutoLens
